import Mathlib

/-!
Verification of the pupillary-distance measurement pipeline against its
specification.  Pure functions are embedded over ℚ (JavaScript numbers whose
uses here are exact arithmetic) or ℝ (where the source calls Math.sqrt);
fallible code returns Except/Option; stateful code is explicit state passing.
Components that the spec describes but that are absent from src/
(GeometryUtils, CardValidator, DistanceCalculator, DataSmoother) are modelled
from the spec text, as flagged in their doc comments.  Everything else is
translated from the TypeScript sources under src/.
-/

namespace PDM

/-! ## Shared data model (src/src/types/index.ts) -/

/-- A point in pixel coordinates (src/src/types/index.ts, Point). -/
structure Point where
  x : ℚ
  y : ℚ
deriving DecidableEq, Repr

/-- JavaScript number values as relevant to the finiteness checks of the spec:
a finite value (exact rational) or one of the non-finite values NaN, +Infinity,
-Infinity. -/
inductive JSNum where
  | val (q : ℚ)
  | nan
  | posInf
  | negInf
deriving DecidableEq, Repr

/-- Finiteness test on a JavaScript number (Number.isFinite). -/
def JSNum.isFinite : JSNum → Bool
  | .val _ => true
  | _ => false

/-! ## DistanceCalculator (spec §4.3; the component is absent from src/) -/

/-- Typed calculation failure of the DistanceCalculator (spec §4.3, §7). -/
inductive CalcError where
  | invalidInput
  | divisionByZero
deriving DecidableEq, Repr

/-- Modelled from the spec: DistanceCalculator.computeIPD is absent from src/.
Spec §4.3: fails with InvalidInput if either input is non-finite
(NaN/±Infinity) or cardPixelWidth ≤ 0; otherwise returns
(eyePixelDistance / cardPixelWidth) * cardRealWidthMm. -/
def computeIPD (eyePixelDistance cardPixelWidth cardRealWidthMm : JSNum) :
    Except CalcError ℚ :=
  match eyePixelDistance, cardPixelWidth, cardRealWidthMm with
  | .val e, .val c, .val r =>
      if c ≤ 0 then .error .invalidInput
      else .ok ((e / c) * r)
  | _, _, _ => .error .invalidInput

/-! ## CardValidator (spec §4.2; the component is absent from src/).
The domain constant 1.586 is in src/src/config/constants.ts. -/

/-- Standard card aspect ratio 85.60mm / 53.98mm
(src/src/config/constants.ts line 36, STANDARD_CARD_ASPECT_RATIO = 1.586). -/
def STANDARD_CARD_ASPECT_RATIO : ℚ := 1586 / 1000

/-- Card detection input (src/src/types/index.ts, CardDetection). -/
structure CardDetection where
  corners : List Point
  width : ℚ
  height : ℚ
  angle : ℚ
  confidence : ℚ
deriving DecidableEq, Repr

/-- The card-related configuration fields used by CardValidator.validate
(spec §3 Configuration; src/src/types/index.ts Configuration.card plus
detection.cardConfidenceThreshold). -/
structure CardConfig where
  cardConfidenceThreshold : ℚ
  aspectRatioTolerance : ℚ
  maxTiltAngleDeg : ℚ
deriving DecidableEq, Repr

/-- Validation outcome reasons (spec §4.2 ValidationResult.reason). -/
inductive ValidationReason where
  | OK
  | AspectRatioOutOfRange
  | TiltTooHigh
  | LowConfidence
deriving DecidableEq, Repr

/-- Validation result (spec §4.2). -/
structure ValidationResult where
  isValid : Bool
  reason : ValidationReason
deriving DecidableEq, Repr

/-- Modelled from the spec: CardValidator.validate is absent from src/.
Spec §4.2: valid only if confidence ≥ cardConfidenceThreshold AND
|ratio - 1.586| / 1.586 ≤ aspectRatioTolerance AND |angle| ≤ maxTiltAngleDeg,
with ratio = width / height, returning the first failing reason in the order
confidence, aspect ratio, tilt.  Callers guarantee height ≠ 0 (spec §4.1
aspectRatio fails on height = 0; the claims quantify over height > 0). -/
def validate (detection : CardDetection) (config : CardConfig) : ValidationResult :=
  if detection.confidence < config.cardConfidenceThreshold then
    ⟨false, .LowConfidence⟩
  else if ¬ (|detection.width / detection.height - STANDARD_CARD_ASPECT_RATIO| /
               STANDARD_CARD_ASPECT_RATIO ≤ config.aspectRatioTolerance) then
    ⟨false, .AspectRatioOutOfRange⟩
  else if ¬ (|detection.angle| ≤ config.maxTiltAngleDeg) then
    ⟨false, .TiltTooHigh⟩
  else
    ⟨true, .OK⟩

/-- Example card of spec §8 scenario 3: width 159, height 100, small tilt,
adequate confidence.  Used to exercise the validator on concrete input. -/
def exampleCard : CardDetection :=
  { corners := [], width := 159, height := 100, angle := 5, confidence := 7/10 }

/-- The default card configuration of src/src/config/constants.ts
(cardConfidenceThreshold 0.6, aspectRatioTolerance 0.1, maxTiltAngle 15). -/
def defaultCardConfig : CardConfig :=
  { cardConfidenceThreshold := 6/10, aspectRatioTolerance := 1/10,
    maxTiltAngleDeg := 15 }

/-! ## DataSmoother (spec §4.4; the component is absent from src/) -/

/-- The smoothing configuration fields (spec §3 Configuration;
src/src/types/index.ts Configuration.smoothing). -/
structure SmootherConfig where
  windowSize : ℕ
  outlierStdDevThreshold : ℚ
deriving DecidableEq, Repr

/-- One retained sample of the smoother window (spec §4.4 state:
each sample is a value with its timestamp). -/
structure Sample where
  value : ℚ
  timestamp : ℚ
deriving DecidableEq, Repr

/-- Arithmetic mean of the window values (spec §4.4 step 2). -/
def windowMean (w : List Sample) : ℚ :=
  (w.map Sample.value).sum / w.length

/-- Population variance of the window values; the spec works with the
population standard deviation σ = sqrt of this quantity (spec §4.4 step 2). -/
def windowVariance (w : List Sample) : ℚ :=
  (w.map (fun s => (s.value - windowMean w) ^ 2)).sum / w.length

/-- Acceptance path of addValue (spec §4.4 step 5): append the sample and, if
the window now exceeds windowSize, evict the oldest sample (FIFO). -/
def accept (windowSize : ℕ) (w : List Sample) (s : Sample) : List Sample :=
  if windowSize < (w ++ [s]).length then (w ++ [s]).tail else w ++ [s]

/-- Result of addValue: the new window and the outlier report
(spec §4.4, isOutlier is reported to the caller). -/
structure AddResult where
  window : List Sample
  isOutlier : Bool
deriving DecidableEq, Repr

/-- Modelled from the spec: DataSmoother.addValue is absent from src/.
Spec §4.4: with fewer than 2 samples accept unconditionally; with σ = 0 accept;
otherwise classify as outlier iff the deviation from the window mean exceeds
outlierStdDevThreshold · σ, excluding outliers from the window.  The z-score
test |v - μ| > t·σ with σ = sqrt(variance) is implemented in the equivalent
squared form t²·variance < (v - μ)² (for t ≥ 0); see abs_sub_lt_sqrt_iff. -/
def addValue (cfg : SmootherConfig) (w : List Sample) (value timestamp : ℚ) :
    AddResult :=
  if w.length < 2 then
    ⟨accept cfg.windowSize w ⟨value, timestamp⟩, false⟩
  else if windowVariance w = 0 then
    ⟨accept cfg.windowSize w ⟨value, timestamp⟩, false⟩
  else if cfg.outlierStdDevThreshold ^ 2 * windowVariance w <
      (value - windowMean w) ^ 2 then
    ⟨w, true⟩
  else
    ⟨accept cfg.windowSize w ⟨value, timestamp⟩, false⟩

/-- The suffix of the n most recent elements of a list. -/
def lastN (n : ℕ) (l : List α) : List α := l.drop (l.length - n)

/-- One frame of smoother processing carrying both the live window and the
full accepted-sample history (the history is specification bookkeeping used to
state the FIFO property; the smoother itself only owns the window). -/
def smootherStep (cfg : SmootherConfig) (st : List Sample × List Sample)
    (p : ℚ × ℚ) : List Sample × List Sample :=
  let r := addValue cfg st.1 p.1 p.2
  (r.window, if r.isOutlier then st.2 else st.2 ++ [⟨p.1, p.2⟩])

/-- Window contents after a sequence of addValue calls on a fresh smoother. -/
def runSmoother (cfg : SmootherConfig) (inputs : List (ℚ × ℚ)) : List Sample :=
  (inputs.foldl (smootherStep cfg) ([], [])).1

/-- All samples accepted (in order) during a sequence of addValue calls on a
fresh smoother. -/
def acceptedSamples (cfg : SmootherConfig) (inputs : List (ℚ × ℚ)) :
    List Sample :=
  (inputs.foldl (smootherStep cfg) ([], [])).2

/-- Concrete two-sample window used to exercise the outlier rule:
values 0 and 2, so mean 1 and population variance 1. -/
def smootherWitnessWindow : List Sample := [⟨0, 0⟩, ⟨2, 1⟩]

/-! ## GeometryUtils (spec §4.1; the component is absent from src/) -/

/-- A point with real coordinates, for the exact distance formula. -/
structure RPoint where
  x : ℝ
  y : ℝ

/-- Modelled from the spec: GeometryUtils.pixelDistance is absent from src/.
Spec §4.1: returns sqrt((b.x-a.x)^2 + (b.y-a.y)^2), matching the formula
exactly, with no approximation. -/
noncomputable def pixelDistance (a b : RPoint) : ℝ :=
  Real.sqrt ((b.x - a.x) ^ 2 + (b.y - a.y) ^ 2)

/-! ## EyeDetector (src/src/core/EyeDetector.ts) -/

/-- A normalized MediaPipe landmark (coordinates in [0,1] are scaled by the
image dimensions when used). -/
structure NormalizedLandmark where
  x : ℚ
  y : ℚ
deriving DecidableEq, Repr

/-- MediaPipe results as consumed by EyeDetector.processResults
(src/src/core/EyeDetector.ts lines 68-107): the landmark lists of the detected
faces plus the processed image dimensions.  Each landmark list of the source is
a 468-entry array read at fixed indices up to 374; it is modelled as a total
function from the index. -/
structure MPResults where
  multiFaceLandmarks : List (ℕ → NormalizedLandmark)
  imageWidth : ℚ
  imageHeight : ℚ

/-- Left-eye landmark indices (src/src/core/EyeDetector.ts line 25). -/
def LEFT_EYE_INDICES : List ℕ := [33, 133, 159, 145]

/-- Right-eye landmark indices (src/src/core/EyeDetector.ts line 27). -/
def RIGHT_EYE_INDICES : List ℕ := [362, 263, 386, 374]

/-- Eye position (src/src/types/index.ts, EyePosition). -/
structure EyePosition where
  left : Point
  right : Point
  confidence : ℚ
deriving DecidableEq, Repr

/-- calculateEyeCenter of src/src/core/EyeDetector.ts lines 117-136: sums the
selected landmarks scaled to pixel coordinates and divides by their count. -/
def calculateEyeCenter (landmarks : ℕ → NormalizedLandmark)
    (eyeIndices : List ℕ) (width height : ℚ) : Point :=
  { x := (eyeIndices.map fun i => (landmarks i).x * width).sum / eyeIndices.length,
    y := (eyeIndices.map fun i => (landmarks i).y * height).sum / eyeIndices.length }

/-- processResults of src/src/core/EyeDetector.ts lines 68-107: when at least
one face is present, the eye centers of the first face are computed and the
resulting EyePosition (default confidence 0.9) is stored and handed to the
caller; when no face is present the result is null.  No further validation is
applied to the computed positions. -/
def processResults (results : MPResults) : Option EyePosition :=
  match results.multiFaceLandmarks with
  | [] => none
  | landmarks :: _ =>
      some { left := calculateEyeCenter landmarks LEFT_EYE_INDICES
               results.imageWidth results.imageHeight,
             right := calculateEyeCenter landmarks RIGHT_EYE_INDICES
               results.imageWidth results.imageHeight,
             confidence := 9/10 }

/-- Landmark layout whose left-eye landmarks sit to the right of the right-eye
landmarks (the four left-eye indices at normalized x = 1, everything else at
x = 0): a frame that violates the left.x < right.x invariant. -/
def swappedLandmarks : ℕ → NormalizedLandmark := fun i =>
  if i = 33 ∨ i = 133 ∨ i = 159 ∨ i = 145 then ⟨1, 0⟩ else ⟨0, 0⟩

/-- A MediaPipe result frame containing exactly the swapped-landmark face in a
100 × 100 image. -/
def swappedResults : MPResults :=
  { multiFaceLandmarks := [swappedLandmarks], imageWidth := 100,
    imageHeight := 100 }

/-- Landmark layout with the expected orientation (right-eye indices at
normalized x = 1, everything else at x = 0). -/
def orderedLandmarks : ℕ → NormalizedLandmark := fun i =>
  if i = 362 ∨ i = 263 ∨ i = 386 ∨ i = 374 then ⟨1, 0⟩ else ⟨0, 0⟩

/-- A MediaPipe result frame containing exactly the well-ordered face in a
100 × 100 image. -/
def orderedResults : MPResults :=
  { multiFaceLandmarks := [orderedLandmarks], imageWidth := 100,
    imageHeight := 100 }

/-! ## Measurement states and status messages
(src/src/types/index.ts, src/src/config/constants.ts) -/

/-- The MeasurementState enum (src/src/types/index.ts lines 58-66). -/
inductive MeasurementState where
  | INITIALIZING
  | WAITING_FOR_FACE
  | FACE_DETECTED
  | WAITING_FOR_CARD
  | MEASURING
  | MEASUREMENT_COMPLETE
  | ERROR
deriving DecidableEq, Repr

/-- The string value of each MeasurementState enum member
(src/src/types/index.ts lines 58-66). -/
def MeasurementState.value : MeasurementState → String
  | .INITIALIZING => "initializing"
  | .WAITING_FOR_FACE => "waiting_for_face"
  | .FACE_DETECTED => "face_detected"
  | .WAITING_FOR_CARD => "waiting_for_card"
  | .MEASURING => "measuring"
  | .MEASUREMENT_COMPLETE => "measurement_complete"
  | .ERROR => "error"

/-- The supported UI languages (src/src/types/index.ts Configuration.ui). -/
inductive Language where
  | zh
  | en
deriving DecidableEq, Repr

/-- STATUS_MESSAGES of src/src/config/constants.ts lines 43-70: the
per-language key/message table, keys in source order. -/
def STATUS_MESSAGES : Language → List (String × String)
  | .zh =>
    [("initializing", "正在初始化系统..."),
     ("waiting_for_face", "请正对摄像头"),
     ("face_detected", "人脸已检测到"),
     ("waiting_for_card", "请放置标准卡片"),
     ("measuring", "测量中..."),
     ("measurement_complete", "测量完成"),
     ("error", "发生错误"),
     ("permission_denied", "请允许访问摄像头"),
     ("camera_not_found", "未检测到摄像头设备"),
     ("camera_in_use", "摄像头正在被其他应用使用"),
     ("card_tilted", "请保持卡片与脸部平行")]
  | .en =>
    [("initializing", "Initializing system..."),
     ("waiting_for_face", "Please face the camera"),
     ("face_detected", "Face detected"),
     ("waiting_for_card", "Please place standard card"),
     ("measuring", "Measuring..."),
     ("measurement_complete", "Measurement complete"),
     ("error", "An error occurred"),
     ("permission_denied", "Please allow camera access"),
     ("camera_not_found", "No camera device detected"),
     ("camera_in_use", "Camera is being used by another application"),
     ("card_tilted", "Please keep card parallel to face")]

/-! ## FaceDetector (src/src/core/FaceDetector.ts) -/

/-- Face bounding box (src/src/types/index.ts FaceDetection.boundingBox). -/
structure BoundingBox where
  x : ℝ
  y : ℝ
  width : ℝ
  height : ℝ

/-- Face detection (src/src/types/index.ts, FaceDetection). -/
structure FaceDetection where
  boundingBox : BoundingBox
  confidence : ℝ

/-- The per-face score of selectBestFace (src/src/core/FaceDetector.ts lines
182-202): 70% weight on normalized area, 30% weight on centrality, where
centrality is one minus the normalized distance of the box center from the
image center. -/
noncomputable def faceScore (imageWidth imageHeight : ℝ)
    (face : FaceDetection) : ℝ :=
  face.boundingBox.width * face.boundingBox.height / (imageWidth * imageHeight)
      * (7/10) +
    (1 - Real.sqrt
        (((face.boundingBox.x + face.boundingBox.width / 2 - imageWidth / 2) /
            imageWidth) ^ 2 +
          ((face.boundingBox.y + face.boundingBox.height / 2 - imageHeight / 2) /
            imageHeight) ^ 2)) * (3/10)

open Classical in
/-- The face a descending stable sort by score puts first: the earliest face
achieving the maximal score (src/src/core/FaceDetector.ts lines 204-206, the
sort comparator mapping (a, b) to b.score - a.score, followed by taking
index 0). -/
noncomputable def pickBest (score : FaceDetection → ℝ) (best : FaceDetection)
    (rest : List FaceDetection) : FaceDetection :=
  rest.foldl (fun b f => if score b < score f then f else b) best

/-- selectBestFace of src/src/core/FaceDetector.ts lines 165-207: null for an
empty list, the unique element for a singleton, and the score-maximal face
otherwise. -/
noncomputable def selectBestFace (detections : List FaceDetection)
    (imageWidth imageHeight : ℝ) : Option FaceDetection :=
  match detections with
  | [] => none
  | [f] => some f
  | f :: rest => some (pickBest (faceScore imageWidth imageHeight) f rest)

/-- A face covering the whole 640 × 480 frame: normalized area 1, centered,
so score 1. -/
noncomputable def witnessFaceA : FaceDetection :=
  { boundingBox := { x := 0, y := 0, width := 640, height := 480 },
    confidence := 9/10 }

/-- A degenerate zero-area face whose center is at normalized distance 1 from
the image center of a 640 × 480 frame, so score 0. -/
noncomputable def witnessFaceB : FaceDetection :=
  { boundingBox := { x := 704, y := 624, width := 0, height := 0 },
    confidence := 9/10 }

/-! ## FrameProcessor (src/src/core/FrameProcessor.ts) -/

/-- FPS_SAMPLE_SIZE of src/src/core/FrameProcessor.ts line 15. -/
def FPS_SAMPLE_SIZE : ℕ := 30

/-- JavaScript Math.round as applied to the finite values produced by the FPS
computation: floor(x + 1/2). -/
def jsRound (q : ℚ) : ℤ := ⌊q + 1/2⌋

/-- getFPS of src/src/core/FrameProcessor.ts lines 104-120: 0 with fewer than
two recorded timestamps, 0 when the recorded span is zero, otherwise
round(frameCount / timeSpan * 1000) where frameCount = length - 1 and
timeSpan = last - first. -/
def getFPS (frameTimestamps : List ℚ) : ℤ :=
  if frameTimestamps.length < 2 then 0
  else if frameTimestamps.getD (frameTimestamps.length - 1) 0 -
      frameTimestamps.getD 0 0 = 0 then 0
  else
    jsRound ((((frameTimestamps.length - 1 : ℕ) : ℚ) /
      (frameTimestamps.getD (frameTimestamps.length - 1) 0 -
        frameTimestamps.getD 0 0)) * 1000)

/-- recordFrameTimestamp of src/src/core/FrameProcessor.ts lines 125-133:
push the timestamp; if the buffer now exceeds FPS_SAMPLE_SIZE, shift off the
oldest entry. -/
def recordFrameTimestamp (frameTimestamps : List ℚ) (now : ℚ) : List ℚ :=
  if FPS_SAMPLE_SIZE < (frameTimestamps ++ [now]).length then
    (frameTimestamps ++ [now]).drop 1
  else frameTimestamps ++ [now]

/-! ## CameraManager (src/src/core/CameraManager.ts) -/

/-- A JavaScript Error as far as CameraManager inspects it: its name. -/
structure CMError where
  name : String
deriving DecidableEq, Repr

/-- Held stream and registered callbacks of a CameraManager instance
(src/src/core/CameraManager.ts lines 17-21); callbacks are modelled as opaque
identifiers, the stream as an opaque value. -/
structure CameraManagerState where
  stream : Option ℕ
  permissionDeniedCallback : Option ℕ
  initializationErrorCallback : Option ℕ
deriving DecidableEq, Repr

/-- The error-name test of handleError
(src/src/core/CameraManager.ts line 142). -/
def isPermissionDenied (e : CMError) : Bool :=
  e.name == "NotAllowedError" || e.name == "PermissionDeniedError"

/-- handleError of src/src/core/CameraManager.ts lines 141-153, as the list of
callback invocations it performs: the permission-denied callback for
NotAllowedError/PermissionDeniedError, the initialization-error callback for
every other error, and in either case only when that callback is registered. -/
def handleError (st : CameraManagerState) (e : CMError) : List (ℕ × CMError) :=
  if isPermissionDenied e then
    match st.permissionDeniedCallback with
    | some cb => [(cb, e)]
    | none => []
  else
    match st.initializationErrorCallback with
    | some cb => [(cb, e)]
    | none => []

/-- Observable outcome of a failed CameraManager.initialize call: the callback
invocations, the rethrown error, and the state after the call. -/
structure InitFailureResult where
  invoked : List (ℕ × CMError)
  rethrown : CMError
  finalState : CameraManagerState
deriving DecidableEq, Repr

/-- Failure path of CameraManager.initialize (src/src/core/CameraManager.ts
lines 28-58): when getUserMedia rejects (or the NotSupportedError is thrown
first), the catch block calls handleError with the error and rethrows it; the
stream assignment is never reached, so the state is unchanged. -/
def cmInitFailure (st : CameraManagerState) (e : CMError) : InitFailureResult :=
  { invoked := handleError st e, rethrown := e, finalState := st }

/-- A CameraManager with only the initialization-error callback registered. -/
def cexCMState : CameraManagerState :=
  { stream := none, permissionDeniedCallback := none,
    initializationErrorCallback := some 1 }

/-- A permission-denied failure. -/
def cexCMError : CMError := { name := "NotAllowedError" }

/-- A CameraManager with both error callbacks registered (ids 7 and 8). -/
def witnessCMState : CameraManagerState :=
  { stream := none, permissionDeniedCallback := some 7,
    initializationErrorCallback := some 8 }

/-- A CameraManager with only the permission-denied callback registered
(id 9), the mirror configuration of cexCMState. -/
def mirrorCMState : CameraManagerState :=
  { stream := none, permissionDeniedCallback := some 9,
    initializationErrorCallback := none }

/-- A device-not-found failure. -/
def witnessCMError : CMError := { name := "NotFoundError" }

end PDM

namespace PDM

/-- C1: computeIPD(eyePixelDistance, cardPixelWidth, cardRealWidthMm) returns
an error exactly when some input is non-finite (NaN or ±Infinity) or
cardPixelWidth ≤ 0; otherwise it returns (eyePixelDistance / cardPixelWidth) *
cardRealWidthMm. -/
theorem computeIPD_error_iff (e c r : JSNum) :
    ((∃ err, computeIPD e c r = .error err) ↔
      (e.isFinite = false ∨ c.isFinite = false ∨ r.isFinite = false ∨
        ∃ cq, c = .val cq ∧ cq ≤ 0)) ∧
    (∀ eq cq rq, e = .val eq → c = .val cq → r = .val rq → 0 < cq →
      computeIPD e c r = .ok ((eq / cq) * rq)) := by
  constructor
  · cases e <;> cases c <;> cases r <;>
      simp [computeIPD, JSNum.isFinite] <;>
      split <;> simp_all
  · rintro eq cq rq rfl rfl rfl hpos
    simp [computeIPD, not_le.mpr hpos]

/-- C1 witness: on the spec example computeIPD(100, 200, 85.60) the guard
0 < 200 holds and the result is ok ((100/200) * 85.6) = ok 42.8. -/
theorem computeIPD_error_iff_witness :
    (0 : ℚ) < 200 ∧
      computeIPD (.val 100) (.val 200) (.val (856/10)) =
        .ok ((100 / 200) * (856/10)) ∧
      ((100 : ℚ) / 200) * (856/10) = 428/10 :=
  ⟨by norm_num,
   (computeIPD_error_iff (.val 100) (.val 200) (.val (856/10))).2
     100 200 (856/10) rfl rfl rfl (by norm_num),
   by norm_num⟩

/-- C3: for detections with width > 0 and height > 0 and any configuration,
CardValidator.validate marks the detection valid iff confidence ≥
cardConfidenceThreshold AND |width/height - 1.586| / 1.586 ≤
aspectRatioTolerance AND |angle| ≤ maxTiltAngleDeg. -/
theorem validate_isValid_iff (d : CardDetection) (cfg : CardConfig)
    (hw : 0 < d.width) (hh : 0 < d.height) :
    (validate d cfg).isValid = true ↔
      (cfg.cardConfidenceThreshold ≤ d.confidence ∧
        |d.width / d.height - 1586/1000| / (1586/1000) ≤ cfg.aspectRatioTolerance ∧
        |d.angle| ≤ cfg.maxTiltAngleDeg) := by
  unfold validate STANDARD_CARD_ASPECT_RATIO
  split_ifs with h1 h2 h3 <;> simp_all [not_le, not_lt]

/-- C3 witness: the spec §8 scenario-3 card (width 159, height 100, ratio 1.59)
under the default configuration is valid, and the three gate conditions hold
concretely. -/
theorem validate_isValid_iff_witness :
    (0 : ℚ) < exampleCard.width ∧ (0 : ℚ) < exampleCard.height ∧
      ((validate exampleCard defaultCardConfig).isValid = true ↔
        (defaultCardConfig.cardConfidenceThreshold ≤ exampleCard.confidence ∧
          |exampleCard.width / exampleCard.height - 1586/1000| / (1586/1000) ≤
            defaultCardConfig.aspectRatioTolerance ∧
          |exampleCard.angle| ≤ defaultCardConfig.maxTiltAngleDeg)) ∧
      (validate exampleCard defaultCardConfig).isValid = true :=
  ⟨by norm_num [exampleCard], by norm_num [exampleCard],
   validate_isValid_iff exampleCard defaultCardConfig
     (by norm_num [exampleCard]) (by norm_num [exampleCard]),
   by norm_num [validate, exampleCard, defaultCardConfig, STANDARD_CARD_ASPECT_RATIO,
     abs_of_nonneg, abs_of_nonpos]⟩

lemma windowVariance_nonneg (w : List Sample) : 0 ≤ windowVariance w := by
  unfold windowVariance
  apply div_nonneg
  · apply List.sum_nonneg
    intro x hx
    simp only [List.mem_map] at hx
    obtain ⟨s, -, rfl⟩ := hx
    positivity
  · positivity

lemma abs_sub_lt_sqrt_iff (t v d : ℝ) (ht : 0 ≤ t) (hv : 0 ≤ v) :
    t * Real.sqrt v < |d| ↔ t ^ 2 * v < d ^ 2 := by
  have hs : Real.sqrt v ^ 2 = v := Real.sq_sqrt hv
  have hsn : 0 ≤ Real.sqrt v := Real.sqrt_nonneg v
  have habs : |d| ^ 2 = d ^ 2 := sq_abs d
  have habsn : 0 ≤ |d| := abs_nonneg d
  constructor
  · intro h
    nlinarith [mul_nonneg ht hsn]
  · intro h
    by_contra hcon
    push_neg at hcon
    nlinarith [mul_nonneg ht hsn]

lemma addValue_cases (cfg : SmootherConfig) (w : List Sample) (v t : ℚ) :
    addValue cfg w v t = ⟨w, true⟩ ∨
      addValue cfg w v t = ⟨accept cfg.windowSize w ⟨v, t⟩, false⟩ := by
  unfold addValue
  split_ifs <;> simp

lemma lastN_length (n : ℕ) (l : List α) : (lastN n l).length = min n l.length := by
  simp only [lastN, List.length_drop]
  omega

lemma accept_lastN (ws : ℕ) (acc w : List Sample) (s : Sample)
    (hw : w = lastN ws acc) (hlen : w.length ≤ ws) :
    accept ws w s = lastN ws (acc ++ [s]) ∧ (accept ws w s).length ≤ ws := by
  have hwl : w.length = min ws acc.length := by rw [hw, lastN_length]
  have hdropA : (acc ++ [s]).drop (acc.length - ws) =
      acc.drop (acc.length - ws) ++ [s] := by
    rw [List.drop_append_eq_append_drop]
    have h0 : acc.length - ws - acc.length = 0 := by omega
    rw [h0]
    simp
  unfold accept
  split_ifs with h
  · have hws : w.length = ws := by
      simp only [List.length_append, List.length_cons, List.length_nil] at h
      omega
    have hwsle : ws ≤ acc.length := by omega
    constructor
    · have hWs : w ++ [s] = (acc ++ [s]).drop (acc.length - ws) := by
        rw [hw]
        unfold lastN
        rw [hdropA]
      rw [hWs, ← List.drop_one, List.drop_drop]
      unfold lastN
      congr 1
      simp only [List.length_append, List.length_cons, List.length_nil]
      omega
    · simp only [List.length_tail, List.length_append, List.length_cons,
        List.length_nil]
      omega
  · have hlt : acc.length < ws := by
      simp only [List.length_append, List.length_cons, List.length_nil] at h
      omega
    have hweq : w = acc := by
      rw [hw]
      unfold lastN
      have h0 : acc.length - ws = 0 := by omega
      rw [h0, List.drop_zero]
    constructor
    · unfold lastN
      have h0 : (acc ++ [s]).length - ws = 0 := by
        simp only [List.length_append, List.length_cons, List.length_nil]
        omega
      rw [h0, List.drop_zero, hweq]
    · simp only [List.length_append, List.length_cons, List.length_nil]
      omega

lemma smoother_inv (cfg : SmootherConfig) (inputs : List (ℚ × ℚ)) :
    ∀ st : List Sample × List Sample,
      st.1.length ≤ cfg.windowSize → st.1 = lastN cfg.windowSize st.2 →
      (inputs.foldl (smootherStep cfg) st).1.length ≤ cfg.windowSize ∧
        (inputs.foldl (smootherStep cfg) st).1 =
          lastN cfg.windowSize (inputs.foldl (smootherStep cfg) st).2 := by
  induction inputs with
  | nil => exact fun st h1 h2 => ⟨h1, h2⟩
  | cons p rest ih =>
    intro st h1 h2
    rw [List.foldl_cons]
    rcases addValue_cases cfg st.1 p.1 p.2 with hv | hv
    · have hstep : smootherStep cfg st p = (st.1, st.2) := by
        simp [smootherStep, hv]
      rw [hstep]
      exact ih (st.1, st.2) h1 h2
    · have hacc := accept_lastN cfg.windowSize st.2 st.1 ⟨p.1, p.2⟩ h2 h1
      have hstep : smootherStep cfg st p =
          (accept cfg.windowSize st.1 ⟨p.1, p.2⟩, st.2 ++ [⟨p.1, p.2⟩]) := by
        simp [smootherStep, hv]
      rw [hstep]
      exact ih _ hacc.2 hacc.1

/-- C5: after any finite sequence of addValue calls starting from a fresh (or
reset) DataSmoother, the window holds at most windowSize samples, and those
samples are exactly the most recently accepted ones in order (FIFO eviction of
the oldest). -/
theorem dataSmoother_window_fifo (cfg : SmootherConfig) (inputs : List (ℚ × ℚ)) :
    (runSmoother cfg inputs).length ≤ cfg.windowSize ∧
      runSmoother cfg inputs = lastN cfg.windowSize (acceptedSamples cfg inputs) := by
  have h := smoother_inv cfg inputs ([], []) (by simp) (by simp [lastN])
  exact ⟨h.1, h.2⟩

/-- C4: addValue accepts unconditionally when fewer than 2 samples exist; with
at least 2 samples and nonzero standard deviation σ, it reports an outlier and
leaves the window unchanged exactly when |value - μ| > outlierStdDevThreshold·σ
(σ = sqrt of the population variance), and otherwise appends the sample (with
FIFO eviction). -/
theorem dataSmoother_outlier_rule (cfg : SmootherConfig) (w : List Sample)
    (v t : ℚ) (hth : 0 ≤ cfg.outlierStdDevThreshold) :
    (w.length < 2 →
      (addValue cfg w v t).isOutlier = false ∧
        (addValue cfg w v t).window = accept cfg.windowSize w ⟨v, t⟩) ∧
    (2 ≤ w.length → windowVariance w ≠ 0 →
      ((cfg.outlierStdDevThreshold : ℝ) * Real.sqrt (windowVariance w) <
          |(v : ℝ) - (windowMean w : ℝ)| →
        (addValue cfg w v t).isOutlier = true ∧ (addValue cfg w v t).window = w) ∧
      (¬ ((cfg.outlierStdDevThreshold : ℝ) * Real.sqrt (windowVariance w) <
            |(v : ℝ) - (windowMean w : ℝ)|) →
        (addValue cfg w v t).isOutlier = false ∧
          (addValue cfg w v t).window = accept cfg.windowSize w ⟨v, t⟩)) := by
  have hvar : (0 : ℝ) ≤ (windowVariance w : ℝ) := by
    exact_mod_cast windowVariance_nonneg w
  have hthR : (0 : ℝ) ≤ (cfg.outlierStdDevThreshold : ℝ) := by exact_mod_cast hth
  have hkey := abs_sub_lt_sqrt_iff (cfg.outlierStdDevThreshold : ℝ)
    (windowVariance w : ℝ) ((v : ℝ) - (windowMean w : ℝ)) hthR hvar
  have hq : ((cfg.outlierStdDevThreshold : ℝ) ^ 2 * (windowVariance w : ℝ) <
      ((v : ℝ) - (windowMean w : ℝ)) ^ 2) ↔
      cfg.outlierStdDevThreshold ^ 2 * windowVariance w < (v - windowMean w) ^ 2 := by
    constructor <;> intro h <;> exact_mod_cast h
  refine ⟨fun hlen => ?_, fun hlen hvne => ⟨fun hout => ?_, fun hnot => ?_⟩⟩
  · simp [addValue, hlen]
  · have hsq : cfg.outlierStdDevThreshold ^ 2 * windowVariance w <
        (v - windowMean w) ^ 2 := hq.mp (hkey.mp hout)
    simp [addValue, not_lt.mpr hlen, hvne, hsq]
  · have hsq : ¬ (cfg.outlierStdDevThreshold ^ 2 * windowVariance w <
        (v - windowMean w) ^ 2) := fun hc => hnot (hkey.mpr (hq.mpr hc))
    simp [addValue, not_lt.mpr hlen, hvne, hsq]

/-- C4 witness: on the window of values 0 and 2 (mean 1, variance 1, σ = 1)
with threshold 3, the value 10 deviates by 9 > 3·σ, is reported as an outlier,
and the window is left unchanged. -/
theorem dataSmoother_outlier_rule_witness :
    (addValue ⟨5, 3⟩ smootherWitnessWindow 10 2).isOutlier = true ∧
      (addValue ⟨5, 3⟩ smootherWitnessWindow 10 2).window = smootherWitnessWindow := by
  have hmean : windowMean smootherWitnessWindow = 1 := by
    norm_num [windowMean, smootherWitnessWindow, Sample.value]
  have hvar : windowVariance smootherWitnessWindow = 1 := by
    norm_num [windowVariance, windowMean, smootherWitnessWindow, Sample.value]
  refine ((dataSmoother_outlier_rule ⟨5, 3⟩ smootherWitnessWindow 10 2
      (by norm_num)).2 (by norm_num [smootherWitnessWindow])
      (by rw [hvar]; norm_num)).1 ?_
  rw [hvar, hmean]
  push_cast
  rw [Real.sqrt_one]
  norm_num [abs_of_nonneg]

/-- C2: pixelDistance(a, b) equals sqrt((b.x-a.x)^2 + (b.y-a.y)^2) exactly
(so in particular within 1e-9 relative error): it matches the formula, is
nonnegative, and its square is exactly the sum of squared coordinate
differences. -/
theorem pixelDistance_formula_exact (a b : RPoint) :
    pixelDistance a b = Real.sqrt ((b.x - a.x) ^ 2 + (b.y - a.y) ^ 2) ∧
      0 ≤ pixelDistance a b ∧
      pixelDistance a b ^ 2 = (b.x - a.x) ^ 2 + (b.y - a.y) ^ 2 := by
  refine ⟨rfl, Real.sqrt_nonneg _, ?_⟩
  exact Real.sq_sqrt (by positivity)

/-- C6 counterexample: on a frame whose computed left eye center (x = 100)
lies to the right of the computed right eye center (x = 0), processResults
still accepts and returns the EyePosition instead of rejecting it, refuting
the claim that left.x ≥ right.x input is treated as invalid. -/
theorem eye_ordering_not_rejected_cex :
    processResults swappedResults =
      some { left := ⟨100, 0⟩, right := ⟨0, 0⟩, confidence := 9/10 } ∧
      ¬ ((100 : ℚ) < 0) := by
  constructor
  · norm_num [processResults, swappedResults, swappedLandmarks,
      calculateEyeCenter, LEFT_EYE_INDICES, RIGHT_EYE_INDICES]
  · norm_num

/-- C6 amended: EyeDetector.processResults performs no left/right ordering
check.  It returns null exactly when no face landmarks are present, and
otherwise unconditionally accepts the eye centers computed from the first
face (confidence 0.9), even when left.x ≥ right.x. -/
theorem processResults_unconditional (results : MPResults) :
    (processResults results = none ↔ results.multiFaceLandmarks = []) ∧
    (∀ landmarks rest, results.multiFaceLandmarks = landmarks :: rest →
      processResults results =
        some { left := calculateEyeCenter landmarks LEFT_EYE_INDICES
                 results.imageWidth results.imageHeight,
               right := calculateEyeCenter landmarks RIGHT_EYE_INDICES
                 results.imageWidth results.imageHeight,
               confidence := 9/10 }) := by
  constructor
  · unfold processResults
    cases results.multiFaceLandmarks <;> simp
  · intro landmarks rest h
    simp [processResults, h]

/-- C6 amended witness: on a well-ordered frame processResults accepts and
returns the computed centers. -/
theorem processResults_unconditional_witness :
    processResults orderedResults =
      some { left := calculateEyeCenter orderedLandmarks LEFT_EYE_INDICES
               100 100,
             right := calculateEyeCenter orderedLandmarks RIGHT_EYE_INDICES
               100 100,
             confidence := 9/10 } :=
  (processResults_unconditional orderedResults).2 orderedLandmarks [] rfl

/-- C7: the state-to-guidance-message mapping is total: for every
MeasurementState enum value and every supported language, the STATUS_MESSAGES
table contains a message under that state's key. -/
theorem statusMessages_total (lang : Language) (s : MeasurementState) :
    ((STATUS_MESSAGES lang).lookup s.value).isSome = true := by
  cases lang <;> cases s <;> rfl

lemma pickBest_mem (score : FaceDetection → ℝ) (rest : List FaceDetection) :
    ∀ b, pickBest score b rest ∈ b :: rest := by
  induction rest with
  | nil => intro b; simp [pickBest]
  | cons f t ih =>
    intro b
    have h1 : pickBest score b (f :: t) =
        pickBest score (if score b < score f then f else b) t := by
      simp [pickBest]
    rw [h1]
    rcases List.mem_cons.mp (ih (if score b < score f then f else b)) with h3 | h3
    · rw [h3]
      split_ifs <;> simp
    · simp [h3]

lemma pickBest_le (score : FaceDetection → ℝ) (rest : List FaceDetection) :
    ∀ b g, g ∈ b :: rest → score g ≤ score (pickBest score b rest) := by
  induction rest with
  | nil =>
    intro b g hg
    simp only [List.mem_singleton] at hg
    simp [pickBest, hg]
  | cons f t ih =>
    intro b g hg
    have h1 : pickBest score b (f :: t) =
        pickBest score (if score b < score f then f else b) t := by
      simp [pickBest]
    rw [h1]
    have hble : score b ≤ score (if score b < score f then f else b) := by
      split_ifs with h
      · exact le_of_lt h
      · exact le_refl _
    have hfle : score f ≤ score (if score b < score f then f else b) := by
      split_ifs with h
      · exact le_refl _
      · exact not_lt.mp h
    have htop := ih (if score b < score f then f else b) _
      (List.mem_cons_self (if score b < score f then f else b) t)
    rcases List.mem_cons.mp hg with rfl | hg2
    · exact le_trans hble htop
    · rcases List.mem_cons.mp hg2 with rfl | hg3
      · exact le_trans hfle htop
      · exact ih _ _ (List.mem_cons.mpr (Or.inr hg3))

/-- C8: selectBestFace returns null iff the detection list is empty; any
returned face is an element of the input; and for lists of two or more faces
the returned face maximizes the 0.7·size + 0.3·centrality score over the
whole list. -/
theorem selectBestFace_spec (detections : List FaceDetection) (w h : ℝ) :
    (selectBestFace detections w h = none ↔ detections = []) ∧
    (∀ f, selectBestFace detections w h = some f → f ∈ detections) ∧
    (2 ≤ detections.length → ∀ f, selectBestFace detections w h = some f →
      ∀ g ∈ detections, faceScore w h g ≤ faceScore w h f) := by
  rcases detections with - | ⟨f0, - | ⟨f1, rest⟩⟩
  · simp [selectBestFace]
  · refine ⟨by simp [selectBestFace], ?_, ?_⟩
    · intro f hf
      simp only [selectBestFace, Option.some.injEq] at hf
      simp [hf]
    · intro hlen
      simp at hlen
  · refine ⟨by simp [selectBestFace], ?_, ?_⟩
    · intro f hf
      simp only [selectBestFace, Option.some.injEq] at hf
      rw [← hf]
      exact pickBest_mem _ _ _
    · intro _ f hf g hg
      simp only [selectBestFace, Option.some.injEq] at hf
      rw [← hf]
      exact pickBest_le _ _ _ g hg

/-- C8 witness: among the full-frame centered face (score 1) and the
degenerate off-center face (score 0), selectBestFace picks the former, and by
the main theorem its score dominates the latter. -/
theorem selectBestFace_spec_witness :
    2 ≤ ([witnessFaceA, witnessFaceB] : List FaceDetection).length ∧
      selectBestFace [witnessFaceA, witnessFaceB] 640 480 = some witnessFaceA ∧
      faceScore 640 480 witnessFaceB ≤ faceScore 640 480 witnessFaceA := by
  have hA : faceScore 640 480 witnessFaceA = 1 := by
    unfold faceScore witnessFaceA
    norm_num
  have hB : faceScore 640 480 witnessFaceB = 0 := by
    unfold faceScore witnessFaceB
    have harg : (((704 : ℝ) + 0 / 2 - 640 / 2) / 640) ^ 2 +
        (((624 : ℝ) + 0 / 2 - 480 / 2) / 480) ^ 2 = 1 := by norm_num
    rw [harg, Real.sqrt_one]
    norm_num
  have hcmp : ¬ (faceScore 640 480 witnessFaceA <
      faceScore 640 480 witnessFaceB) := by
    rw [hA, hB]
    norm_num
  have hsel : selectBestFace [witnessFaceA, witnessFaceB] 640 480 =
      some witnessFaceA := by
    simp only [selectBestFace, pickBest, List.foldl_cons, List.foldl_nil,
      if_neg hcmp]
  exact ⟨by simp, hsel,
    (selectBestFace_spec [witnessFaceA, witnessFaceB] 640 480).2.2 (by simp)
      witnessFaceA hsel witnessFaceB (by simp)⟩

/-- C9: getFPS never divides by zero and is total: it returns 0 with fewer
than two timestamps or a zero recorded span, and otherwise
round((count - 1) / span * 1000); and the timestamp buffer of
recordFrameTimestamp never exceeds FPS_SAMPLE_SIZE (30) entries after any
sequence of captures from a fresh processor. -/
theorem frameProcessor_fps_safe (l : List ℚ) (captures : List ℚ) :
    (l.length < 2 → getFPS l = 0) ∧
    (2 ≤ l.length → l.getD (l.length - 1) 0 - l.getD 0 0 = 0 → getFPS l = 0) ∧
    (2 ≤ l.length → l.getD (l.length - 1) 0 - l.getD 0 0 ≠ 0 →
      getFPS l = jsRound ((((l.length - 1 : ℕ) : ℚ) /
        (l.getD (l.length - 1) 0 - l.getD 0 0)) * 1000)) ∧
    (captures.foldl recordFrameTimestamp []).length ≤ FPS_SAMPLE_SIZE := by
  refine ⟨fun hlt => by unfold getFPS; rw [if_pos hlt],
    fun h1 h2 => by unfold getFPS; rw [if_neg (not_lt.mpr h1), if_pos h2],
    fun h1 h2 => by unfold getFPS; rw [if_neg (not_lt.mpr h1), if_neg h2], ?_⟩
  have key : ∀ start : List ℚ, start.length ≤ FPS_SAMPLE_SIZE →
      (captures.foldl recordFrameTimestamp start).length ≤ FPS_SAMPLE_SIZE := by
    induction captures with
    | nil => exact fun s hs => hs
    | cons c t ih =>
      intro s hs
      rw [List.foldl_cons]
      apply ih
      unfold recordFrameTimestamp
      split_ifs with hx
      · simp only [List.length_drop, List.length_append, List.length_cons,
          List.length_nil]
        omega
      · simp only [List.length_append, List.length_cons, List.length_nil] at hx ⊢
        omega
  exact key [] (by simp [FPS_SAMPLE_SIZE])

/-- C9 witness: three frames at 0, 100 and 200 milliseconds give span 200 and
getFPS 10 = round(2 / 200 * 1000). -/
theorem frameProcessor_fps_safe_witness :
    getFPS [0, 100, 200] = 10 := by
  have h := (frameProcessor_fps_safe [(0 : ℚ), 100, 200] []).2.2.1
    (by simp) (by simp [List.getD])
  rw [h]
  norm_num [jsRound, List.getD]

/-- C10 counterexample: a permission-denied failure on a CameraManager whose
permission-denied callback is not registered invokes no callback at all, even
though the initialization-error callback is registered — refuting the claim
that exactly one registered error callback is always invoked. -/
theorem cameraManager_callback_cex :
    (cmInitFailure cexCMState cexCMError).invoked = [] ∧
      cexCMState.initializationErrorCallback = some 1 := by
  constructor
  · rfl
  · rfl

/-- C10 amended: when CameraManager.initialize fails with error e, the error
is rethrown unchanged and the stream field is unchanged (null remains null);
the name-selected callback (the permission-denied callback iff the error name
is NotAllowedError or PermissionDeniedError, the initialization-error callback
otherwise) is invoked with the failing error exactly when it is registered,
and no other callback is ever invoked: at most one invocation in every
configuration, exactly one whenever both callbacks are registered. -/
theorem cameraManager_initFailure_spec (st : CameraManagerState) (e : CMError) :
    (cmInitFailure st e).rethrown = e ∧
    (cmInitFailure st e).finalState.stream = st.stream ∧
    (cmInitFailure st e).invoked.length ≤ 1 ∧
    (isPermissionDenied e = true → ∀ pcb,
      st.permissionDeniedCallback = some pcb →
      (cmInitFailure st e).invoked = [(pcb, e)]) ∧
    (isPermissionDenied e = true → st.permissionDeniedCallback = none →
      (cmInitFailure st e).invoked = []) ∧
    (isPermissionDenied e = false → ∀ icb,
      st.initializationErrorCallback = some icb →
      (cmInitFailure st e).invoked = [(icb, e)]) ∧
    (isPermissionDenied e = false → st.initializationErrorCallback = none →
      (cmInitFailure st e).invoked = []) ∧
    (∀ pcb icb, st.permissionDeniedCallback = some pcb →
      st.initializationErrorCallback = some icb →
      (cmInitFailure st e).invoked =
        [(if isPermissionDenied e then pcb else icb, e)]) := by
  refine ⟨rfl, rfl, ?_, ?_, ?_, ?_, ?_, ?_⟩
  · unfold cmInitFailure handleError
    split_ifs
    · cases st.permissionDeniedCallback <;> simp
    · cases st.initializationErrorCallback <;> simp
  · intro hp pcb hpcb
    simp [cmInitFailure, handleError, hp, hpcb]
  · intro hp hnone
    simp [cmInitFailure, handleError, hp, hnone]
  · intro hp icb hicb
    simp [cmInitFailure, handleError, hp, hicb]
  · intro hp hnone
    simp [cmInitFailure, handleError, hp, hnone]
  · intro pcb icb hp hi
    unfold cmInitFailure handleError
    split_ifs with hc
    · rw [hp]
    · rw [hi]

/-- C10 amended witness: a NotAllowedError on a CameraManager with only the
permission-denied callback registered (id 9) invokes exactly that callback —
the single-registered positive case — and with both callbacks registered
(ids 7, 8) a NotFoundError invokes exactly the name-selected
initialization-error callback. -/
theorem cameraManager_initFailure_spec_witness :
    isPermissionDenied cexCMError = true ∧
      (cmInitFailure mirrorCMState cexCMError).invoked = [(9, cexCMError)] ∧
      (cmInitFailure witnessCMState witnessCMError).invoked =
        [(if isPermissionDenied witnessCMError then 7 else 8, witnessCMError)] :=
  ⟨rfl,
   (cameraManager_initFailure_spec mirrorCMState cexCMError).2.2.2.1 rfl 9 rfl,
   (cameraManager_initFailure_spec witnessCMState
       witnessCMError).2.2.2.2.2.2.2 7 8 rfl rfl⟩

end PDM
